import Mathlib

/-!
# Sentinel chatbot: session, conversation engine and history ledger

A shallow embedding of the stateful part of `src/chatbot_ui/chatbot.jsx`
(the component `SentinelChatbot`): the React state cells and `localStorage`
become one record, every handler becomes a function on that record, and what
the outside world supplies (the clock, the outcome of a `fetch`, the platform
`JSON` object) is an explicit argument.
-/

namespace Sentinel

/-! ## JavaScript values -/

/-- A JavaScript string, as the list of its UTF-16 code units (numbers below 65536). -/
abbrev JsString := List Nat

/-- The JavaScript string written by an ASCII literal of the source. -/
def jsLit (s : String) : JsString := s.toList.map Char.toNat

/-- The code units removed by `String.prototype.trim`: the ECMAScript
`WhiteSpace` and `LineTerminator` code points. -/
def isWhiteSpace (c : Nat) : Bool :=
  (9 ≤ c && c ≤ 13) || c == 32 || c == 160 || c == 5760 || (8192 ≤ c && c ≤ 8202) ||
    c == 8232 || c == 8233 || c == 8239 || c == 8287 || c == 12288 || c == 65279

/-- The method `String.prototype.trim`. -/
def trim (s : JsString) : JsString :=
  ((s.dropWhile isWhiteSpace).reverse.dropWhile isWhiteSpace).reverse

/-- The method `String.prototype.substring` on non-negative integer indices:
indices beyond the length are clamped and the two are swapped when out of order. -/
def substring (s : JsString) (indexStart indexEnd : Nat) : JsString :=
  (s.take (max indexStart indexEnd)).drop (min indexStart indexEnd)

/-- The method `Array.prototype.slice` on non-negative integer indices. -/
def slice {α : Type} (xs : List α) (start stop : Nat) : List α :=
  (xs.take stop).drop start

/-- A JavaScript value as the component can observe it. A boolean, number,
array or object is given by the two things the code does with such a value:
testing its truthiness and converting it to a string. -/
inductive JsValue where
  | undefined
  | null
  | string (s : JsString)
  | other (truthy : Bool) (text : JsString)
deriving DecidableEq, Repr

/-- Truthiness, as tested by `||`, `!` and `if`. -/
def JsValue.truthy : JsValue → Bool
  | .undefined => false
  | .null => false
  | .string s => !s.isEmpty
  | .other t _ => t

/-- The operator `a || b`. -/
def JsValue.or (a b : JsValue) : JsValue :=
  if a.truthy then a else b

/-- The conversion `String(v)`, as done by template literals and `localStorage.setItem`. -/
def JsValue.toStr : JsValue → JsString
  | .undefined => jsLit "undefined"
  | .null => jsLit "null"
  | .string s => s
  | .other _ text => text

/-- A value is present when it is neither `null` nor `undefined`. -/
def JsValue.present : JsValue → Bool
  | .undefined => false
  | .null => false
  | _ => true

/-! ## Data model -/

/-- The two values of the `role` field. -/
inductive Role where
  | user
  | assistant
deriving DecidableEq, Repr

/-- An element of `messages`. `isError` is `none` on the objects built without
that property (`userMessage`, `assistantMessage`). -/
structure Message where
  id : Nat
  role : Role
  content : JsValue
  timestamp : JsString
  isError : Option Bool
deriving DecidableEq, Repr

/-- An element of `queryHistory`; `response` holds the preview. -/
structure HistoryEntry where
  id : Nat
  query : JsString
  response : JsString
  timestamp : JsString
deriving DecidableEq, Repr

/-- The two keys of `localStorage` the component uses; `none` is an absent key. -/
structure LocalStorage where
  sentinel_token : Option JsString
  query_history : Option JsString
deriving DecidableEq, Repr

/-- The React state cells of `SentinelChatbot`, together with `localStorage`. -/
structure AppState where
  isAuthenticated : Bool
  token : JsValue
  username : JsString
  password : JsString
  loginError : JsString
  messages : List Message
  input : JsString
  isLoading : Bool
  queryHistory : List HistoryEntry
  showHistory : Bool
  showExamples : Bool
  activeCategory : JsString
  storage : LocalStorage
deriving DecidableEq, Repr

/-- The state produced by the `useState` initialisers, over a given `localStorage`. -/
def initialState (storage : LocalStorage) : AppState :=
  { isAuthenticated := false
    token := .null
    username := []
    password := []
    loginError := []
    messages := []
    input := []
    isLoading := false
    queryHistory := []
    showHistory := false
    showExamples := true
    activeCategory := jsLit "sop"
    storage := storage }

/-! ## What the environment supplies -/

/-- A value read by `JSON.parse`, as written in the text; a number keeps its numeral. -/
inductive JsonValue where
  | null
  | bool (b : Bool)
  | number (numeral : JsString)
  | string (s : JsString)
  | array (items : List JsonValue)
  | object (members : List (JsString × JsonValue))

/-- What `JSON.parse` returns on the text of the history key, seen from the
typed ledger: a list of history entries as `addToHistory` builds them, or any
other value (`null`, a number, an object, a list of something else), kept as
parsed. -/
inductive Parsed where
  | ledger (entries : List HistoryEntry)
  | other (value : JsonValue)

/-- The platform object `JSON`, on ledgers: `parse` either throws (the message
of the error) or returns a value. -/
structure Json where
  stringify : List HistoryEntry → JsString
  parse : JsString → Except JsString Parsed

/-- How the mount effect, or a sequence of operations, ends. -/
inductive Ended where
  /-- It completes, in this state. -/
  | ok (s : AppState)
  /-- An exception leaves the effect, with this message. -/
  | threw (error : JsString)
  /-- It completes with a value in the `queryHistory` cell that is no list of
  history entries; `s` gives the other cells. -/
  | foreign (s : AppState) (ledger : JsonValue)

/-- One reading of the clock while an object literal is built: the values of
`Date.now()` and of `new Date().toISOString()`. -/
structure Tick where
  now : Nat
  iso : JsString
deriving DecidableEq, Repr

/-- The body of a chat response, as `response.json()` and the two property
reads see it. -/
inductive ChatBody where
  /-- The call `response.json()` rejects, with this error message. -/
  | invalidJson (message : JsString)
  /-- The body is JSON `null`: reading `data.response` throws, with this message. -/
  | null (message : JsString)
  /-- Any other JSON value, with what `data.response` and `data.message` read. -/
  | data (response message : JsValue)
deriving DecidableEq, Repr

/-- How the `fetch` of `/api/chat` settles. -/
inductive FetchOutcome where
  /-- The promise rejects (network error), with this error message. -/
  | rejected (message : JsString)
  /-- A response arrives, with this HTTP status. -/
  | response (status : Nat) (body : ChatBody)
deriving DecidableEq, Repr

/-- The property `Response.ok`: the status is in the range 200 to 299. -/
def responseOk (status : Nat) : Bool :=
  200 ≤ status && status ≤ 299

/-- Everything one call of `handleSendMessage` takes from outside. -/
structure ChatEnv where
  /-- The clock when `userMessage` is built. -/
  sendTick : Tick
  outcome : FetchOutcome
  /-- The clock read that gives its id to the first message appended after
  the request settles: `assistantMessage`, or `errorMessage` when the `catch`
  block runs with no `assistantMessage` appended. On a `null` body the read
  made for the `assistantMessage` that is never built is discarded; this is
  then the later read, inside the `catch` block. -/
  replyTick : Tick
  /-- The clock inside `addToHistory`. -/
  historyTick : Tick
  /-- The clock when `errorMessage` is built after `addToHistory` threw. -/
  catchTick : Tick
  /-- The message of the `TypeError` raised by `response.substring` on a non-string. -/
  typeError : JsString
deriving DecidableEq, Repr

/-- The body of a login response. -/
inductive LoginBody where
  /-- The call `response.json()` rejects, with this error message. -/
  | invalidJson (message : JsString)
  /-- The body is JSON `null`: reading `data.access_token` throws, with this message. -/
  | null (message : JsString)
  /-- Any other JSON value, with what `data.access_token` reads. -/
  | data (access_token : JsValue)
deriving DecidableEq, Repr

/-- How the `fetch` of `/auth/login` settles. -/
inductive LoginOutcome where
  | rejected (message : JsString)
  | response (status : Nat) (body : LoginBody)
deriving DecidableEq, Repr

/-! ## The handlers -/

/-- Truthiness of what `localStorage.getItem` returns: a non-empty string. -/
def storedTruthy : Option JsString → Bool
  | none => false
  | some s => !s.isEmpty

/-- The mount effect (`useEffect(..., [])`): restores the token and the
ledger, storing whatever `JSON.parse` returns. -/
def restore (J : Json) (s : AppState) : Ended :=
  let storedToken := s.storage.sentinel_token
  let storedHistory := s.storage.query_history
  let s1 :=
    match storedToken with
    | some t => if storedTruthy (some t) then { s with token := .string t, isAuthenticated := true } else s
    | none => s
  match storedHistory with
  | some h =>
    if storedTruthy (some h) then
      match J.parse h with
      | .ok (.ledger parsed) => .ok { s1 with queryHistory := parsed }
      | .ok (.other value) => .foreign s1 value
      | .error e => .threw e
    else .ok s1
  | none => .ok s1

/-- The `catch` block of `handleLogin`. -/
def loginCatch (message : JsString) (s : AppState) : AppState :=
  { s with loginError := if !message.isEmpty then message else jsLit "Login failed. Please try again." }

/-- The handler `handleLogin`, run to completion on a given outcome of the request. -/
def handleLogin (o : LoginOutcome) (s : AppState) : AppState :=
  let s1 := { s with loginError := [], isLoading := true }
  let s2 :=
    match o with
    | .rejected message => loginCatch message s1
    | .response status body =>
      if !responseOk status then loginCatch (jsLit "Invalid credentials") s1
      else
        match body with
        | .invalidJson message => loginCatch message s1
        | .null message => loginCatch message s1
        | .data access_token =>
          { s1 with
            token := access_token
            isAuthenticated := true
            storage := { s1.storage with sentinel_token := some access_token.toStr }
            password := [] }
  { s2 with isLoading := false }

/-- The handler `handleLogout`. -/
def handleLogout (s : AppState) : AppState :=
  { s with
    isAuthenticated := false
    token := .null
    messages := []
    storage := { s.storage with sentinel_token := none }
    username := [] }

/-- The history entry built inside `addToHistory` from a string response. -/
def historyEntry (tick : Tick) (query response : JsString) : HistoryEntry :=
  { id := tick.now
    query := query
    response := substring response 0 100 ++ jsLit "..."
    timestamp := tick.iso }

/-- The function `addToHistory`. `queryHistory` is the ledger captured by the
closure that runs; the second component is the message of the error thrown,
if any (`response.substring` on a value that is not a string). -/
def addToHistory (J : Json) (tick : Tick) (typeError : JsString) (queryHistory : List HistoryEntry)
    (s : AppState) (query : JsString) (response : JsValue) : AppState × Option JsString :=
  match response with
  | .string r =>
    let newHistory := slice (historyEntry tick query r :: queryHistory) 0 20
    ({ s with
       queryHistory := newHistory
       storage := { s.storage with query_history := some (J.stringify newHistory) } }, none)
  | _ => (s, some typeError)

/-- The `catch` block of `handleSendMessage`: appends `errorMessage`. -/
def chatCatch (tick : Tick) (message : JsString) (s : AppState) : AppState :=
  { s with
    messages := s.messages ++
      [{ id := tick.now + 1
         role := .assistant
         content := .string (jsLit "Error: " ++ message)
         timestamp := tick.iso
         isError := some true }] }

/-- The expression `data.response || data.message || 'No response received'`. -/
def chatContent (response message : JsValue) : JsValue :=
  (response.or message).or (.string (jsLit "No response received"))

/-- The `try`/`catch` of `handleSendMessage`, from the moment the request
settles. `captured` is the ledger seen by the closure that was called. -/
def chatSettle (J : Json) (env : ChatEnv) (captured : List HistoryEntry) (messageText : JsString)
    (s : AppState) : AppState :=
  match env.outcome with
  | .rejected message => chatCatch env.replyTick message s
  | .response status body =>
    if !responseOk status then
      if status == 401 then
        chatCatch env.replyTick (jsLit "Session expired. Please login again.") (handleLogout s)
      else chatCatch env.replyTick (jsLit "Failed to get response") s
    else
      match body with
      | .invalidJson message => chatCatch env.replyTick message s
      | .null message => chatCatch env.replyTick message s
      | .data response message =>
        let assistantMessage : Message :=
          { id := env.replyTick.now + 1
            role := .assistant
            content := chatContent response message
            timestamp := env.replyTick.iso
            isError := none }
        let s1 := { s with messages := s.messages ++ [assistantMessage] }
        match addToHistory J env.historyTick env.typeError captured s1 messageText
            assistantMessage.content with
        | (s2, none) => s2
        | (s2, some thrown) => chatCatch env.catchTick thrown s2

/-- The guard of `handleSendMessage`: `!messageText.trim() || isLoading`. -/
def sendRejected (s : AppState) (messageText : JsString) : Bool :=
  (trim messageText).isEmpty || s.isLoading

/-- The request issued by `handleSendMessage`. -/
structure ChatRequest where
  authorization : JsString
  message : JsString
deriving DecidableEq, Repr

/-- The synchronous part of `handleSendMessage`: the guard, the optimistic
append of `userMessage`, and the request that is issued (`none` when the call
returns at the guard). `arg` is the argument, `none` when it is omitted and
the default `input` applies. -/
def handleSendMessageStart (tick : Tick) (s : AppState) (arg : Option JsString) :
    AppState × Option ChatRequest :=
  let messageText := arg.getD s.input
  if sendRejected s messageText then (s, none)
  else
    let userMessage : Message :=
      { id := tick.now
        role := .user
        content := .string messageText
        timestamp := tick.iso
        isError := none }
    ({ s with
       messages := s.messages ++ [userMessage]
       input := []
       isLoading := true
       showExamples := false },
     some { authorization := jsLit "Bearer " ++ s.token.toStr, message := messageText })

/-- The handler `handleSendMessage`, run to completion: the synchronous
part, then the `try`/`catch` on the outcome of the request, then `finally`. -/
def handleSendMessage (J : Json) (env : ChatEnv) (s : AppState) (arg : Option JsString) : AppState :=
  match handleSendMessageStart env.sendTick s arg with
  | (s1, none) => s1
  | (s1, some _) =>
    { chatSettle J env s.queryHistory (arg.getD s.input) s1 with isLoading := false }

/-! ## Sequences of calls -/

/-- The arguments and the clock of one `addToHistory` call with a string response. -/
structure RecordCall where
  tick : Tick
  query : JsString
  response : JsString
deriving DecidableEq, Repr

/-- One `addToHistory` call made from the current render, whose closure holds
the current ledger. -/
def record (J : Json) (s : AppState) (c : RecordCall) : AppState :=
  (addToHistory J c.tick [] s.queryHistory s c.query (.string c.response)).1

/-- A sequence of `addToHistory` calls, one after another. -/
def recordAll (J : Json) (s : AppState) (calls : List RecordCall) : AppState :=
  calls.foldl (record J) s

/-- The entry a call inserts. -/
def RecordCall.entry (c : RecordCall) : HistoryEntry :=
  historyEntry c.tick c.query c.response

/-- The operations on the session. -/
inductive Action where
  | restore
  | login (o : LoginOutcome)
  | logout
  | chat (env : ChatEnv) (arg : Option JsString)
deriving DecidableEq, Repr

/-- One operation. -/
def step (J : Json) (s : AppState) : Action → Ended
  | .restore => restore J s
  | .login o => .ok (handleLogin o s)
  | .logout => .ok (handleLogout s)
  | .chat env arg => .ok (handleSendMessage J env s arg)

/-- A sequence of operations, stopping where the mount effect throws or
leaves a ledger that is no list of history entries. -/
def run (J : Json) (s : AppState) : List Action → Ended
  | [] => .ok s
  | a :: rest =>
    match step J s a with
    | .ok s1 => run J s1 rest
    | .threw e => .threw e
    | .foreign s1 value => .foreign s1 value

/-- The session invariant of the data model: authenticated iff a token is present. -/
def SessionInvariant (s : AppState) : Prop :=
  s.isAuthenticated = true ↔ s.token.present = true

/-- A login whose response is a success carries an `access_token` that is
neither `null` nor `undefined`; every other operation qualifies. -/
def Action.tokenGranted : Action → Bool
  | .login (.response status (.data access_token)) => !responseOk status || access_token.present
  | _ => true

/-- A sequence of chat exchanges, each run to completion. -/
def runChats (J : Json) (s : AppState) (chats : List (ChatEnv × Option JsString)) : AppState :=
  chats.foldl (fun st c => handleSendMessage J c.1 st c.2) s

/-- The ids of the transcript, in order. -/
def messageIds (s : AppState) : List Nat :=
  s.messages.map (fun m => m.id)

/-- The clock readings of one exchange, in the order they are taken. -/
def ChatEnv.readings (env : ChatEnv) : List Nat :=
  [env.sendTick.now, env.replyTick.now, env.historyTick.now, env.catchTick.now]

/-- The exchange appends two messages after the request settles: the reply is
a success whose content is not a string, so `addToHistory` throws after
`assistantMessage` was appended. -/
def ChatEnv.repliesTwice (env : ChatEnv) : Bool :=
  match env.outcome with
  | .response status (.data response message) =>
    responseOk status &&
      (match chatContent response message with
       | .string _ => false
       | _ => true)
  | _ => false

/-- The clock reading behind the id of the last message an exchange appends. -/
def ChatEnv.lastStamp (env : ChatEnv) : Nat :=
  if env.repliesTwice then env.catchTick.now else env.replyTick.now

/-- The timing under which ids grow: within an exchange the clock does not go
back between the send and the reply, it advances between the two messages of
an exchange that replies twice, and every send comes at least 2 ms after the
last message of the exchange before (`floor` is that bound for the first one). -/
def spaced : Nat → List (ChatEnv × Option JsString) → Bool
  | _, [] => true
  | floor, (env, _) :: rest =>
    decide (floor ≤ env.sendTick.now) && decide (env.sendTick.now ≤ env.replyTick.now) &&
      (!env.repliesTwice || decide (env.replyTick.now < env.catchTick.now)) &&
      spaced (env.lastStamp + 2) rest

/-- The response carries HTTP status 401. -/
def ChatEnv.unauthorized (env : ChatEnv) : Bool :=
  match env.outcome with
  | .response status _ => status == 401
  | .rejected _ => false

/-- The clock readings of a sequence of exchanges, in the order they are taken. -/
def clockReadings : List (ChatEnv × Option JsString) → List Nat
  | [] => []
  | c :: rest => c.1.readings ++ clockReadings rest

/-! ## The platform JSON -/

/-- The four characters JSON allows between tokens. -/
def isJsonSpace (c : Nat) : Bool :=
  c == 32 || c == 9 || c == 10 || c == 13

/-- The text after its leading JSON white space. -/
def skipSpace (s : JsString) : JsString :=
  s.dropWhile isJsonSpace

/-- The decimal digits `0` to `9`. -/
def isDigit (c : Nat) : Bool :=
  48 ≤ c && c ≤ 57

/-- The value of a hexadecimal digit. -/
def hexValue (c : Nat) : Option Nat :=
  if 48 ≤ c && c ≤ 57 then some (c - 48)
  else if 97 ≤ c && c ≤ 102 then some (c - 87)
  else if 65 ≤ c && c ≤ 70 then some (c - 55)
  else none

/-- The character written by a two-character escape. -/
def simpleEscape (c : Nat) : Option Nat :=
  if c == 34 then some 34
  else if c == 92 then some 92
  else if c == 47 then some 47
  else if c == 98 then some 8
  else if c == 102 then some 12
  else if c == 110 then some 10
  else if c == 114 then some 13
  else if c == 116 then some 9
  else none

/-- A JSON string after its opening quote: the string and the rest of the text. -/
def parseStringBody : JsString → Option (JsString × JsString)
  | [] => none
  | c :: rest =>
    if c == 34 then some ([], rest)
    else if c == 92 then
      match rest with
      | [] => none
      | e :: rest1 =>
        if e == 117 then
          match rest1 with
          | h1 :: h2 :: h3 :: h4 :: rest2 =>
            match hexValue h1, hexValue h2, hexValue h3, hexValue h4, parseStringBody rest2 with
            | some a, some b, some c3, some d, some (s, r) =>
              some ((a * 4096 + b * 256 + c3 * 16 + d) :: s, r)
            | _, _, _, _, _ => none
          | _ => none
        else
          match simpleEscape e, parseStringBody rest1 with
          | some u, some (s, r) => some (u :: s, r)
          | _, _ => none
    else if c < 32 then none
    else
      match parseStringBody rest with
      | some (s, r) => some (c :: s, r)
      | none => none

/-- One or more digits: the digits and the rest, or `none`. -/
def parseDigits (s : JsString) : Option (JsString × JsString) :=
  if (s.takeWhile isDigit).isEmpty then none
  else some (s.takeWhile isDigit, s.dropWhile isDigit)

/-- The integer part of a JSON number: `0`, or a digit from 1 to 9 followed by digits. -/
def parseInt (s : JsString) : Option (JsString × JsString) :=
  match s with
  | 48 :: rest => some ([48], rest)
  | _ => parseDigits s

/-- The optional fraction of a JSON number. -/
def parseFraction (s : JsString) : Option (JsString × JsString) :=
  match s with
  | 46 :: rest =>
    match parseDigits rest with
    | some (d, r) => some (46 :: d, r)
    | none => none
  | _ => some ([], s)

/-- The optional exponent of a JSON number. -/
def parseExponent (s : JsString) : Option (JsString × JsString) :=
  match s with
  | [] => some ([], s)
  | c :: rest =>
    if c == 101 || c == 69 then
      match rest with
      | sign :: rest1 =>
        if sign == 43 || sign == 45 then
          match parseDigits rest1 with
          | some (d, r) => some (c :: sign :: d, r)
          | none => none
        else
          match parseDigits rest with
          | some (d, r) => some (c :: d, r)
          | none => none
      | [] => none
    else some ([], s)

/-- A JSON number: its numeral and the rest of the text. -/
def parseNumber (s : JsString) : Option (JsString × JsString) :=
  let signed : JsString × JsString :=
    match s with
    | 45 :: rest => ([45], rest)
    | _ => ([], s)
  match parseInt signed.2 with
  | none => none
  | some (i, r1) =>
    match parseFraction r1 with
    | none => none
    | some (f, r2) =>
      match parseExponent r2 with
      | none => none
      | some (e, r3) => some (signed.1 ++ i ++ f ++ e, r3)

/-- What the parser is reading: a value, the rest of an array, the rest of an object. -/
inductive ParseMode where
  | value
  | items (acc : List JsonValue)
  | members (acc : List (JsString × JsonValue))

/-- The JSON grammar, by recursive descent. The first argument bounds the
number of nested calls; a text of `n` code units needs at most `2 * n + 1`. -/
def parseJson : Nat → ParseMode → JsString → Option (JsonValue × JsString)
  | 0, _, _ => none
  | fuel + 1, .value, input =>
    match skipSpace input with
    | [] => none
    | 110 :: 117 :: 108 :: 108 :: rest => some (.null, rest)
    | 116 :: 114 :: 117 :: 101 :: rest => some (.bool true, rest)
    | 102 :: 97 :: 108 :: 115 :: 101 :: rest => some (.bool false, rest)
    | c :: rest =>
      if c == 34 then
        match parseStringBody rest with
        | some (s, r) => some (.string s, r)
        | none => none
      else if c == 91 then
        match skipSpace rest with
        | 93 :: r => some (.array [], r)
        | _ => parseJson fuel (.items []) rest
      else if c == 123 then
        match skipSpace rest with
        | 125 :: r => some (.object [], r)
        | _ => parseJson fuel (.members []) rest
      else
        match parseNumber (c :: rest) with
        | some (n, r) => some (.number n, r)
        | none => none
  | fuel + 1, .items acc, input =>
    match parseJson fuel .value input with
    | none => none
    | some (v, r) =>
      match skipSpace r with
      | 44 :: r1 => parseJson fuel (.items (acc ++ [v])) r1
      | 93 :: r1 => some (.array (acc ++ [v]), r1)
      | _ => none
  | fuel + 1, .members acc, input =>
    match skipSpace input with
    | 34 :: r =>
      match parseStringBody r with
      | none => none
      | some (key, r1) =>
        match skipSpace r1 with
        | 58 :: r2 =>
          match parseJson fuel .value r2 with
          | none => none
          | some (v, r3) =>
            match skipSpace r3 with
            | 44 :: r4 => parseJson fuel (.members (acc ++ [(key, v)])) r4
            | 125 :: r4 => some (.object (acc ++ [(key, v)]), r4)
            | _ => none
        | _ => none
    | _ => none

/-- The function `JSON.parse`: the value, or the message of the `SyntaxError` thrown. -/
def jsonParse (text : JsString) : Except JsString JsonValue :=
  match parseJson (2 * text.length + 2) .value text with
  | some (v, rest) =>
    if (skipSpace rest).isEmpty then .ok v else .error (jsLit "Unexpected token in JSON")
  | none => .error (jsLit "Unexpected token in JSON")


/-- The digit of a hexadecimal value below 16, in lower case. -/
def hexDigit (n : Nat) : Nat :=
  if n < 10 then 48 + n else 87 + n

/-- The six-character escape of a code unit: a backslash, `u`, four hexadecimal digits. -/
def unicodeEscape (c : Nat) : JsString :=
  [92, 117, hexDigit (c / 4096 % 16), hexDigit (c / 256 % 16), hexDigit (c / 16 % 16),
    hexDigit (c % 16)]

/-- The code units D800 to DBFF. -/
def isHighSurrogate (c : Nat) : Bool :=
  55296 ≤ c && c ≤ 56319

/-- The code units DC00 to DFFF. -/
def isLowSurrogate (c : Nat) : Bool :=
  56320 ≤ c && c ≤ 57343

/-- The characters `JSON.stringify` writes between the quotes of a string:
quotes, backslashes, control characters and lone surrogates are escaped.
`paired` tells that the code unit before was a high surrogate written as
the first half of a pair. -/
def quoteFrom (paired : Bool) : JsString → JsString
  | [] => []
  | c :: rest =>
    if c == 34 then 92 :: 34 :: quoteFrom false rest
    else if c == 92 then 92 :: 92 :: quoteFrom false rest
    else if c == 8 then 92 :: 98 :: quoteFrom false rest
    else if c == 9 then 92 :: 116 :: quoteFrom false rest
    else if c == 10 then 92 :: 110 :: quoteFrom false rest
    else if c == 12 then 92 :: 102 :: quoteFrom false rest
    else if c == 13 then 92 :: 114 :: quoteFrom false rest
    else if c < 32 then unicodeEscape c ++ quoteFrom false rest
    else if isHighSurrogate c then
      if (rest.head?.map isLowSurrogate).getD false then c :: quoteFrom true rest
      else unicodeEscape c ++ quoteFrom false rest
    else if isLowSurrogate c then
      if paired then c :: quoteFrom false rest
      else unicodeEscape c ++ quoteFrom false rest
    else c :: quoteFrom false rest

/-- A string as `JSON.stringify` writes it. -/
def quote (s : JsString) : JsString :=
  34 :: quoteFrom false s ++ [34]

/-- A non-negative integer below 10 to the 21 as `JSON.stringify` writes it: its decimal digits. -/
def decimal (n : Nat) : JsString :=
  (Nat.toDigits 10 n).map Char.toNat

/-- A property name followed by its colon. -/
def member (name : String) : JsString :=
  quote (jsLit name) ++ [58]

/-- A history entry as `JSON.stringify` writes it. -/
def entryJson (e : HistoryEntry) : JsString :=
  [123] ++ member "id" ++ decimal e.id ++ [44] ++ member "query" ++ quote e.query ++ [44] ++
    member "response" ++ quote e.response ++ [44] ++ member "timestamp" ++ quote e.timestamp ++
    [125]

/-- The function `JSON.stringify` on a ledger. -/
def jsonStringify (ledger : List HistoryEntry) : JsString :=
  [91] ++ List.intercalate [44] (ledger.map entryJson) ++ [93]

/-- The number written by a numeral of plain digits, when it is at most 2 to the 53. -/
def plainNumber (numeral : JsString) : Option Nat :=
  if !numeral.isEmpty && numeral.all isDigit &&
      decide (numeral.foldl (fun n c => 10 * n + (c - 48)) 0 ≤ 9007199254740992) then
    some (numeral.foldl (fun n c => 10 * n + (c - 48)) 0)
  else none

/-- The history entry a parsed value is, when it is an object with exactly
the properties `id`, `query`, `response`, `timestamp`, in this order, of a
plain number and three strings. -/
def asEntry : JsonValue → Option HistoryEntry
  | .object [(k1, .number n), (k2, .string q), (k3, .string r), (k4, .string t)] =>
    if k1 = jsLit "id" ∧ k2 = jsLit "query" ∧ k3 = jsLit "response" ∧ k4 = jsLit "timestamp" then
      match plainNumber n with
      | some id => some { id := id, query := q, response := r, timestamp := t }
      | none => none
    else none
  | _ => none

/-- All the values of a list of options, when none is missing. -/
def allSome {α : Type} : List (Option α) → Option (List α)
  | [] => some []
  | none :: _ => none
  | some a :: rest =>
    match allSome rest with
    | some l => some (a :: l)
    | none => none

/-- The typed ledger a parsed value is, when it is an array of history entries. -/
def asLedger : JsonValue → Option (List HistoryEntry)
  | .array items => allSome (items.map asEntry)
  | _ => none

/-- The function `JSON.parse` on the text of the history key. -/
def parseLedger (text : JsString) : Except JsString Parsed :=
  match jsonParse text with
  | .error e => .error e
  | .ok v =>
    match asLedger v with
    | some l => .ok (.ledger l)
    | none => .ok (.other v)

/-! ## Sample inputs -/

/-- The platform `JSON` object of the section above, to run the model on
concrete inputs. -/
def sampleJson : Json :=
  { stringify := jsonStringify
    parse := parseLedger }

/-- A clock reading at millisecond `n`. -/
def sampleTick (n : Nat) : Tick :=
  { now := n, iso := jsLit "2025-10-13T07:00:00.000Z" }

/-- An authenticated, idle session with `hello` typed in the input box. -/
def sampleState : AppState :=
  { initialState { sentinel_token := some (jsLit "tok"), query_history := none } with
    isAuthenticated := true
    token := .string (jsLit "tok")
    input := jsLit "hello" }

/-- An exchange all of whose clock readings are `t`. -/
def sampleEnv (t : Nat) (outcome : FetchOutcome) : ChatEnv :=
  { sendTick := sampleTick t
    outcome := outcome
    replyTick := sampleTick t
    historyTick := sampleTick t
    catchTick := sampleTick t
    typeError := jsLit "response.substring is not a function" }

/-- A success whose `response` field is the empty string and whose `message`
field is `fallback`. -/
def emptyResponseEnv : ChatEnv :=
  sampleEnv 5 (.response 200 (.data (.string []) (.string (jsLit "fallback"))))

/-- A login answered with status 200 and the body `{}`. -/
def tokenlessLogin : Action :=
  .login (.response 200 (.data .undefined))

/-- A store whose history key holds the text `{`. -/
def corruptStorage : LocalStorage :=
  { sentinel_token := none, query_history := some (jsLit "\x7b") }

/-- Two exchanges that fail on the network, the second sent in the
millisecond after the first one settled. -/
def quickChats : List (ChatEnv × Option JsString) :=
  [(sampleEnv 0 (.rejected (jsLit "Failed to fetch")), some (jsLit "first")),
   (sampleEnv 1 (.rejected (jsLit "Failed to fetch")), some (jsLit "second"))]

/-- Two exchanges that fail on the network, the second sent 2 ms after the
first one settled. -/
def spacedChats : List (ChatEnv × Option JsString) :=
  [(sampleEnv 0 (.rejected (jsLit "Failed to fetch")), some (jsLit "first")),
   (sampleEnv 2 (.rejected (jsLit "Failed to fetch")), some (jsLit "second"))]

/-- A store whose history key holds the text `null`. -/
def nullStorage : LocalStorage :=
  { sentinel_token := none, query_history := some (jsLit "null") }

/-- A ledger entry recorded last. -/
def newerEntry : HistoryEntry :=
  { id := 1760338800000, query := jsLit "who entered?", response := jsLit "3 people entered...",
    timestamp := jsLit "2025-10-13T07:00:00.000Z" }

/-- A ledger entry recorded earlier. -/
def oldEntry : HistoryEntry :=
  { id := 1, query := jsLit "old", response := jsLit "old answer...",
    timestamp := jsLit "2025-10-12T07:00:00.000Z" }

/-- The sample session with a restored ledger of 25 entries. -/
def crowdedState : AppState :=
  { sampleState with queryHistory := List.replicate 25 oldEntry }

/-- One `addToHistory` call. -/
def sampleCall : RecordCall :=
  { tick := sampleTick 9, query := jsLit "who entered?", response := jsLit "3 people entered" }

/-- A success whose `response` field is a text. -/
def successEnv : ChatEnv :=
  sampleEnv 5 (.response 200 (.data (.string (jsLit "3 people entered")) .undefined))

/-- A response with status 401. -/
def expiredEnv : ChatEnv :=
  sampleEnv 7 (.response 401 (.invalidJson (jsLit "Unexpected end of JSON input")))

/-- A request that fails on the network. -/
def offlineEnv : ChatEnv :=
  sampleEnv 3 (.rejected (jsLit "Failed to fetch"))

/-- A store holding a token and the text written for a ledger of two entries. -/
def savedStorage : LocalStorage :=
  { sentinel_token := some (jsLit "tok")
    query_history := some (jsonStringify [newerEntry, oldEntry]) }

/-- A store holding the empty ledger and no token. -/
def freshStorage : LocalStorage :=
  { sentinel_token := none, query_history := some (jsLit "[]") }

/-- A session: restore, log in, receive a 401 on the first exchange, log in again, log out. -/
def sampleActions : List Action :=
  [.restore,
   .login (.response 200 (.data (.string (jsLit "tok")))),
   .chat expiredEnv (some (jsLit "hello")),
   .login (.response 200 (.data (.string (jsLit "tok2")))),
   .logout]

/-- The sample session after an earlier exchange that failed on the network. -/
def chattedState : AppState :=
  { sampleState with
    messages :=
      [{ id := 1, role := .user, content := .string (jsLit "hi"),
         timestamp := jsLit "2025-10-13T06:59:00.000Z", isError := none },
       { id := 2, role := .assistant, content := .string (jsLit "Error: Failed to fetch"),
         timestamp := jsLit "2025-10-13T06:59:00.000Z", isError := some true }] }

/-! ## Helper lemmas -/

theorem jsLit_ellipsis_length : (jsLit "...").length = 3 := by decide

theorem substring_zero (s : JsString) (n : Nat) : substring s 0 n = s.take n := by
  simp [substring]

theorem slice_zero {α : Type} (xs : List α) (n : Nat) : slice xs 0 n = xs.take n := by
  simp [slice]

theorem take_append_take {α : Type} (n : Nat) (xs ys : List α) :
    (xs ++ ys.take n).take n = (xs ++ ys).take n := by
  rw [List.take_append_eq_append_take, List.take_append_eq_append_take, List.take_take]
  congr 2
  omega

theorem record_queryHistory (J : Json) (s : AppState) (c : RecordCall) :
    (record J s c).queryHistory = (c.entry :: s.queryHistory).take 20 := by
  simp [record, addToHistory, slice_zero, RecordCall.entry]

theorem recordAll_take (J : Json) (calls : List RecordCall) (s : AppState) :
    (recordAll J s calls).queryHistory.take 20 =
      ((calls.map RecordCall.entry).reverse ++ s.queryHistory).take 20 := by
  induction calls generalizing s with
  | nil => simp [recordAll]
  | cons c cs ih =>
    have h := ih (record J s c)
    simp only [recordAll, List.foldl_cons] at h ⊢
    rw [h, record_queryHistory, take_append_take]
    simp

theorem recordAll_length (J : Json) (calls : List RecordCall) (s : AppState)
    (h : s.queryHistory.length ≤ 20) : (recordAll J s calls).queryHistory.length ≤ 20 := by
  induction calls generalizing s with
  | nil => simpa [recordAll] using h
  | cons c cs ih =>
    simp only [recordAll, List.foldl_cons]
    apply ih
    rw [record_queryHistory]
    simp

/-! ## The history ledger -/

/-- C1: after any non-empty sequence of `addToHistory` calls on any initial
ledger, the ledger has at most 20 entries and is the first 20 elements of the
new entries in reverse insertion order followed by the initial ledger. -/
theorem ledger_bounded_newest_first (J : Json) (s : AppState) (calls : List RecordCall)
    (h : calls ≠ []) :
    (recordAll J s calls).queryHistory.length ≤ 20 ∧
      (recordAll J s calls).queryHistory =
        ((calls.map RecordCall.entry).reverse ++ s.queryHistory).take 20 := by
  have hlen : (recordAll J s calls).queryHistory.length ≤ 20 := by
    cases calls with
    | nil => exact absurd rfl h
    | cons c cs =>
      simp only [recordAll, List.foldl_cons]
      apply recordAll_length
      rw [record_queryHistory]
      simp
  refine ⟨hlen, ?_⟩
  rw [← recordAll_take, List.take_of_length_le hlen]

/-! ## The history ledger, continued -/

/-- C2: the entry `addToHistory` puts at the head of the ledger keeps the
query unchanged and stores as preview the first 100 code units of the
response followed by `...`, whatever the length of the response, so the
preview has `min (length response) 100 + 3` code units; the call does not throw. -/
theorem preview_is_first_100_then_ellipsis (J : Json) (tick : Tick) (typeError : JsString)
    (captured : List HistoryEntry) (s : AppState) (query response : JsString) :
    (addToHistory J tick typeError captured s query (.string response)).2 = none ∧
      (addToHistory J tick typeError captured s query (.string response)).1.queryHistory.head? =
        some (historyEntry tick query response) ∧
      (historyEntry tick query response).response = response.take 100 ++ jsLit "..." ∧
      (historyEntry tick query response).response.length = min response.length 100 + 3 ∧
      (historyEntry tick query response).query = query := by
  refine ⟨rfl, ?_, ?_, ?_, rfl⟩
  · simp [addToHistory, slice_zero]
  · simp [historyEntry, substring_zero]
  · simp [historyEntry, substring_zero, jsLit_ellipsis_length, Nat.min_comm]

/-! ## The conversation engine -/

/-- C6: when the text is empty after trimming, or when `isLoading` is true,
`handleSendMessage` returns at its guard: no request is issued and the whole
state (transcript, ledger, session, busy flag) is unchanged. -/
theorem send_guard_is_noop (J : Json) (env : ChatEnv) (s : AppState) (arg : Option JsString)
    (h : trim (arg.getD s.input) = [] ∨ s.isLoading = true) :
    handleSendMessageStart env.sendTick s arg = (s, none) ∧
      handleSendMessage J env s arg = s := by
  have hrej : sendRejected s (arg.getD s.input) = true := by
    rcases h with h | h
    · simp [sendRejected, h]
    · simp [sendRejected, h]
  have hstart : handleSendMessageStart env.sendTick s arg = (s, none) := by
    simp [handleSendMessageStart, hrej]
  exact ⟨hstart, by simp [handleSendMessage, hstart]⟩

theorem sendRejected_false (s : AppState) (text : JsString) (hidle : s.isLoading = false)
    (htext : trim text ≠ []) : sendRejected s text = false := by
  simp [sendRejected, hidle, htext]

/-- The shape of a completed exchange once the guard is passed. -/
theorem handleSendMessage_passed (J : Json) (env : ChatEnv) (s : AppState)
    (arg : Option JsString) (h : sendRejected s (arg.getD s.input) = false) :
    handleSendMessage J env s arg =
      { chatSettle J env s.queryHistory (arg.getD s.input)
          { s with
            messages := s.messages ++
              [{ id := env.sendTick.now
                 role := .user
                 content := .string (arg.getD s.input)
                 timestamp := env.sendTick.iso
                 isError := none }]
            input := []
            isLoading := true
            showExamples := false } with isLoading := false } := by
  simp [handleSendMessage, handleSendMessageStart, h]

/-- C3: from an idle engine and a non-blank text, an exchange whose request
succeeds with string content `c` appends the user message and then the
assistant message (no `isError` property) carrying `c`, and the ledger
becomes the entry for the text and `c` prepended to the former ledger and
cut to 20. -/
theorem successful_exchange (J : Json) (env : ChatEnv) (s : AppState) (arg : Option JsString)
    (status : Nat) (response message : JsValue) (c : JsString)
    (hidle : s.isLoading = false) (htext : trim (arg.getD s.input) ≠ [])
    (hout : env.outcome = .response status (.data response message))
    (hok : responseOk status = true) (hc : chatContent response message = .string c) :
    (handleSendMessage J env s arg).messages =
        s.messages ++
          [{ id := env.sendTick.now, role := .user, content := .string (arg.getD s.input),
             timestamp := env.sendTick.iso, isError := none },
           { id := env.replyTick.now + 1, role := .assistant, content := .string c,
             timestamp := env.replyTick.iso, isError := none }] ∧
      (handleSendMessage J env s arg).queryHistory =
        (historyEntry env.historyTick (arg.getD s.input) c :: s.queryHistory).take 20 := by
  rw [handleSendMessage_passed J env s arg (sendRejected_false s _ hidle htext)]
  simp [chatSettle, hout, hok, hc, addToHistory, slice_zero]

theorem error_text_expired :
    jsLit "Error: " ++ jsLit "Session expired. Please login again." =
      jsLit "Error: Session expired. Please login again." := by decide

theorem error_text_failed :
    jsLit "Error: " ++ jsLit "Failed to get response" =
      jsLit "Error: Failed to get response" := by decide

/-- C4: from an idle engine and a non-blank text, an exchange answered with
HTTP 401 ends logged out (flag false, token `null`, stored token removed),
with the ledger as it was, and with a transcript that holds the one message
appended after the logout cleared it: the error-flagged assistant message
carrying the session-expired notice. -/
theorem unauthorized_exchange (J : Json) (env : ChatEnv) (s : AppState) (arg : Option JsString)
    (body : ChatBody) (hidle : s.isLoading = false) (htext : trim (arg.getD s.input) ≠ [])
    (hout : env.outcome = .response 401 body) :
    (handleSendMessage J env s arg).isAuthenticated = false ∧
      (handleSendMessage J env s arg).token = .null ∧
      (handleSendMessage J env s arg).storage.sentinel_token = none ∧
      (handleSendMessage J env s arg).messages =
        [{ id := env.replyTick.now + 1, role := .assistant,
           content := .string (jsLit "Error: Session expired. Please login again."),
           timestamp := env.replyTick.iso, isError := some true }] ∧
      (handleSendMessage J env s arg).queryHistory = s.queryHistory := by
  rw [handleSendMessage_passed J env s arg (sendRejected_false s _ hidle htext)]
  simp [chatSettle, hout, responseOk, chatCatch, handleLogout, error_text_expired]

/-- The session fields after the request settles: reset on status 401, kept otherwise. -/
theorem chatSettle_isAuthenticated (J : Json) (env : ChatEnv) (captured : List HistoryEntry)
    (text : JsString) (s : AppState) :
    (chatSettle J env captured text s).isAuthenticated =
      if env.unauthorized then false else s.isAuthenticated := by
  unfold chatSettle ChatEnv.unauthorized
  cases env.outcome with
  | rejected message => simp [chatCatch]
  | response status body =>
    by_cases h401 : status = 401
    · subst h401
      simp [responseOk, chatCatch, handleLogout]
    · by_cases hok : responseOk status = true
      · cases body with
        | invalidJson message => simp [hok, h401, chatCatch]
        | null message => simp [hok, h401, chatCatch]
        | data response message =>
          cases hc : chatContent response message <;>
            simp [hok, h401, hc, addToHistory, chatCatch]
      · simp [hok, h401, chatCatch]

/-- C5: from an idle engine and a non-blank text, an exchange that fails by a
network error, or by a non-2xx status other than 401, keeps the token, the
authenticated flag, the stored token and the ledger, and appends the user
message followed by one error-flagged assistant message carrying the failure
description; and an exchange from an authenticated session ends logged out
exactly when the response has status 401. -/
theorem failed_exchange_frame (J : Json) (env : ChatEnv) (s : AppState) (arg : Option JsString)
    (hidle : s.isLoading = false) (htext : trim (arg.getD s.input) ≠ []) :
    (∀ description : JsString,
        (env.outcome = .rejected description ∨
          ∃ status body, env.outcome = .response status body ∧ responseOk status = false ∧
            status ≠ 401 ∧ description = jsLit "Failed to get response") →
        (handleSendMessage J env s arg).token = s.token ∧
        (handleSendMessage J env s arg).isAuthenticated = s.isAuthenticated ∧
        (handleSendMessage J env s arg).storage.sentinel_token = s.storage.sentinel_token ∧
        (handleSendMessage J env s arg).queryHistory = s.queryHistory ∧
        (handleSendMessage J env s arg).messages =
          s.messages ++
            [{ id := env.sendTick.now, role := .user, content := .string (arg.getD s.input),
               timestamp := env.sendTick.iso, isError := none },
             { id := env.replyTick.now + 1, role := .assistant,
               content := .string (jsLit "Error: " ++ description),
               timestamp := env.replyTick.iso, isError := some true }]) ∧
      (s.isAuthenticated = true →
        ((handleSendMessage J env s arg).isAuthenticated = false ↔
          ∃ body, env.outcome = .response 401 body)) := by
  rw [handleSendMessage_passed J env s arg (sendRejected_false s _ hidle htext)]
  constructor
  · intro description hfail
    rcases hfail with hrej | ⟨status, body, hout, hok, h401, hd⟩
    · simp [chatSettle, hrej, chatCatch]
    · simp [chatSettle, hout, hok, h401, hd, chatCatch]
  · intro hauth
    simp only [chatSettle_isAuthenticated, hauth]
    unfold ChatEnv.unauthorized
    cases env.outcome with
    | rejected message => simp
    | response status body =>
      by_cases h401 : status = 401
      · simp [h401]
      · simp [h401]

/-- The transcript after a success: the user message, the assistant message,
and the error message when `addToHistory` threw. -/
theorem messages_after_success (J : Json) (env : ChatEnv) (s : AppState) (arg : Option JsString)
    (status : Nat) (response message : JsValue)
    (hidle : s.isLoading = false) (htext : trim (arg.getD s.input) ≠ [])
    (hout : env.outcome = .response status (.data response message))
    (hok : responseOk status = true) :
    ∃ tail, (handleSendMessage J env s arg).messages =
      s.messages ++
        ({ id := env.sendTick.now, role := .user, content := .string (arg.getD s.input),
           timestamp := env.sendTick.iso, isError := none } ::
         { id := env.replyTick.now + 1, role := .assistant,
           content := chatContent response message,
           timestamp := env.replyTick.iso, isError := none } :: tail) := by
  rw [handleSendMessage_passed J env s arg (sendRejected_false s _ hidle htext)]
  cases hc : chatContent response message <;>
    simp [chatSettle, hout, hok, hc, addToHistory, chatCatch]

theorem chatContent_eq (response message : JsValue) :
    chatContent response message =
      if response.truthy then response
      else if message.truthy then message
      else .string (jsLit "No response received") := by
  unfold chatContent JsValue.or
  by_cases hr : response.truthy = true
  · simp [hr]
  · by_cases hm : message.truthy = true
    · simp [hr, hm]
    · simp [hr, hm]

/-- C9, as amended: after a success, the message following the user message
is the assistant message, whose content is the `response` field when that is
truthy, else the `message` field when that is truthy, else the text
`No response received`. -/
theorem assistant_content_first_truthy (J : Json) (env : ChatEnv) (s : AppState)
    (arg : Option JsString) (status : Nat) (response message : JsValue)
    (hidle : s.isLoading = false) (htext : trim (arg.getD s.input) ≠ [])
    (hout : env.outcome = .response status (.data response message))
    (hok : responseOk status = true) :
    (handleSendMessage J env s arg).messages[s.messages.length + 1]? =
      some { id := env.replyTick.now + 1, role := .assistant,
             content :=
               if response.truthy then response
               else if message.truthy then message
               else .string (jsLit "No response received"),
             timestamp := env.replyTick.iso, isError := none } := by
  obtain ⟨tail, h⟩ := messages_after_success J env s arg status response message hidle htext hout hok
  rw [h, ← chatContent_eq, List.getElem?_append_right (by omega)]
  simp

/-- C9, as stated, fails: with the `response` field present as the empty
string and the `message` field `fallback`, the assistant message carries
`fallback`. -/
theorem empty_response_is_skipped :
    (JsValue.string []).present = true ∧
      emptyResponseEnv.outcome = .response 200 (.data (.string []) (.string (jsLit "fallback"))) ∧
      (handleSendMessage sampleJson emptyResponseEnv sampleState none).messages[1]? =
        some { id := 6, role := .assistant, content := .string (jsLit "fallback"),
               timestamp := jsLit "2025-10-13T07:00:00.000Z", isError := none } := by
  decide

/-! ## The session -/

theorem chatSettle_token (J : Json) (env : ChatEnv) (captured : List HistoryEntry)
    (text : JsString) (s : AppState) :
    (chatSettle J env captured text s).token =
      if env.unauthorized then .null else s.token := by
  unfold chatSettle ChatEnv.unauthorized
  cases env.outcome with
  | rejected message => simp [chatCatch]
  | response status body =>
    by_cases h401 : status = 401
    · subst h401
      simp [responseOk, chatCatch, handleLogout]
    · by_cases hok : responseOk status = true
      · cases body with
        | invalidJson message => simp [hok, h401, chatCatch]
        | null message => simp [hok, h401, chatCatch]
        | data response message =>
          cases hc : chatContent response message <;>
            simp [hok, h401, hc, addToHistory, chatCatch]
      · simp [hok, h401, chatCatch]

theorem invariant_initialState (storage : LocalStorage) :
    SessionInvariant (initialState storage) := by
  simp [SessionInvariant, initialState, JsValue.present]

theorem invariant_handleLogout (s : AppState) : SessionInvariant (handleLogout s) := by
  simp [SessionInvariant, handleLogout, JsValue.present]

theorem invariant_handleSendMessage (J : Json) (env : ChatEnv) (s : AppState)
    (arg : Option JsString) (h : SessionInvariant s) :
    SessionInvariant (handleSendMessage J env s arg) := by
  by_cases hrej : sendRejected s (arg.getD s.input) = true
  · have : handleSendMessage J env s arg = s := by
      simp [handleSendMessage, handleSendMessageStart, hrej]
    rw [this]
    exact h
  · rw [handleSendMessage_passed J env s arg (by simpa using hrej)]
    unfold SessionInvariant at h ⊢
    simp only [chatSettle_isAuthenticated, chatSettle_token]
    by_cases hu : env.unauthorized = true
    · simp [hu, JsValue.present]
    · simpa [hu] using h

theorem invariant_restore (J : Json) (s s1 : AppState) (h : SessionInvariant s)
    (hr : restore J s = .ok s1) : SessionInvariant s1 := by
  have key : ∀ s0 : AppState, SessionInvariant s0 →
      SessionInvariant
        (match s0.storage.sentinel_token with
         | some t =>
           if storedTruthy (some t) then { s0 with token := .string t, isAuthenticated := true }
           else s0
         | none => s0) := by
    intro s0 h0
    cases s0.storage.sentinel_token with
    | none => exact h0
    | some t =>
      by_cases ht : storedTruthy (some t) = true
      · simp [ht, SessionInvariant, JsValue.present]
      · simpa [ht] using h0
  have hk := key s h
  unfold restore at hr
  simp only at hr
  cases hq : s.storage.query_history with
  | none =>
    rw [hq] at hr
    simp only [Ended.ok.injEq] at hr
    rw [← hr]
    exact hk
  | some text =>
    rw [hq] at hr
    by_cases htr : storedTruthy (some text) = true
    · simp only [htr, if_true] at hr
      cases hp : J.parse text with
      | error e => rw [hp] at hr; cases hr
      | ok parsed =>
        rw [hp] at hr
        cases parsed with
        | ledger entries =>
          simp only [Ended.ok.injEq] at hr
          rw [← hr]
          exact hk
        | other value => cases hr
    · simp [htr] at hr
      rw [← hr]
      exact hk

theorem invariant_handleLogin (o : LoginOutcome) (s : AppState) (h : SessionInvariant s)
    (hg : (Action.login o).tokenGranted = true) : SessionInvariant (handleLogin o s) := by
  unfold SessionInvariant at h ⊢
  cases o with
  | rejected message => simpa [handleLogin, loginCatch] using h
  | response status body =>
    by_cases hok : responseOk status = true
    · cases body with
      | invalidJson message => simpa [handleLogin, loginCatch, hok] using h
      | null message => simpa [handleLogin, loginCatch, hok] using h
      | data access_token =>
        have hp : access_token.present = true := by
          simpa [Action.tokenGranted, hok] using hg
        simp [handleLogin, hok, hp]
    · simpa [handleLogin, loginCatch, hok] using h

theorem invariant_run (J : Json) (actions : List Action) (s0 s : AppState)
    (h0 : SessionInvariant s0) (hg : ∀ a ∈ actions, a.tokenGranted = true)
    (hrun : run J s0 actions = .ok s) : SessionInvariant s := by
  induction actions generalizing s0 with
  | nil =>
    simp only [run, Ended.ok.injEq] at hrun
    rw [← hrun]
    exact h0
  | cons a rest ih =>
    have hga : a.tokenGranted = true := hg a (List.mem_cons_self _ _)
    have hgr : ∀ b ∈ rest, b.tokenGranted = true := fun b hb => hg b (List.mem_cons_of_mem _ hb)
    cases a with
    | restore =>
      simp only [run, step] at hrun
      cases hres : restore J s0 with
      | threw e => rw [hres] at hrun; cases hrun
      | foreign s1 value => rw [hres] at hrun; cases hrun
      | ok s1 =>
        rw [hres] at hrun
        exact ih s1 (invariant_restore J s0 s1 h0 hres) hgr hrun
    | login o =>
      simp only [run, step] at hrun
      exact ih _ (invariant_handleLogin o s0 h0 hga) hgr hrun
    | logout =>
      simp only [run, step] at hrun
      exact ih _ (invariant_handleLogout s0) hgr hrun
    | chat env arg =>
      simp only [run, step] at hrun
      exact ih _ (invariant_handleSendMessage J env s0 arg h0) hgr hrun

/-- C7, as amended: every state reached from the initial state by restore,
logins, logouts and chat exchanges satisfies authenticated iff token present,
provided each login answered with a success status carries an `access_token`
that is neither `null` nor `undefined`. -/
theorem session_invariant_reachable (J : Json) (storage : LocalStorage) (actions : List Action)
    (s : AppState) (hgrant : ∀ a ∈ actions, a.tokenGranted = true)
    (hrun : run J (initialState storage) actions = .ok s) :
    s.isAuthenticated = true ↔ s.token.present = true :=
  invariant_run J actions (initialState storage) s (invariant_initialState storage) hgrant hrun

/-- C7, as stated, fails: a login answered with status 200 and a body
without `access_token` leaves the flag true and the token `undefined`. -/
theorem login_without_token_breaks_invariant :
    run sampleJson (initialState { sentinel_token := none, query_history := none })
        [tokenlessLogin] =
      .ok (handleLogin (.response 200 (.data .undefined))
        (initialState { sentinel_token := none, query_history := none })) ∧
    (handleLogin (.response 200 (.data .undefined))
        (initialState { sentinel_token := none, query_history := none })).isAuthenticated = true ∧
    (handleLogin (.response 200 (.data .undefined))
        (initialState { sentinel_token := none, query_history := none })).token.present = false := by
  refine ⟨rfl, ?_, ?_⟩ <;> decide

/-! ## Restoring the ledger -/

/-- The state the mount effect leaves from the initial state when it restores
the token only. -/
theorem restore_ledger_cases (J : Json) (tok : Option JsString) (text : JsString)
    (htr : storedTruthy (some text) = true) :
    ∃ s1 : AppState, s1.queryHistory = [] ∧
      restore J (initialState ⟨tok, some text⟩) =
        match J.parse text with
        | .ok (.ledger parsed) => .ok { s1 with queryHistory := parsed }
        | .ok (.other value) => .foreign s1 value
        | .error e => .threw e := by
  cases tok with
  | none => exact ⟨initialState ⟨none, some text⟩, rfl, by simp [restore, initialState, htr]⟩
  | some t =>
    by_cases ht : storedTruthy (some t) = true
    · exact ⟨{ initialState ⟨some t, some text⟩ with token := .string t, isAuthenticated := true },
        rfl, by simp [restore, initialState, ht, htr]⟩
    · exact ⟨initialState ⟨some t, some text⟩, rfl, by simp [restore, initialState, ht, htr]⟩

/-- C8, as amended: from the initial state, when the history key is absent or
holds the empty string the mount effect completes with the empty ledger; when
it holds a non-empty text that `JSON.parse` turns into a list of history
entries, the effect completes with that list as the ledger, in the same order;
when `JSON.parse` turns the text into any other value, the effect completes
and that value, not the empty list, is what the ledger cell holds; and when
`JSON.parse` throws on the text, the effect throws that error and restores no
ledger. -/
theorem restore_ledger (J : Json) (storage : LocalStorage) :
    (storedTruthy storage.query_history = false →
        ∃ s, restore J (initialState storage) = .ok s ∧ s.queryHistory = []) ∧
      (∀ text ledger, storage.query_history = some text → text ≠ [] →
        J.parse text = .ok (.ledger ledger) →
        ∃ s, restore J (initialState storage) = .ok s ∧ s.queryHistory = ledger) ∧
      (∀ text value, storage.query_history = some text → text ≠ [] →
        J.parse text = .ok (.other value) →
        ∃ s, restore J (initialState storage) = .foreign s value) ∧
      (∀ text e, storage.query_history = some text → text ≠ [] →
        J.parse text = .error e →
        restore J (initialState storage) = .threw e) := by
  obtain ⟨tok, hist⟩ := storage
  refine ⟨?_, ?_, ?_, ?_⟩
  · intro h
    simp only at h
    cases tok with
    | none =>
      cases hist with
      | none => exact ⟨_, rfl, rfl⟩
      | some text =>
        refine ⟨initialState ⟨none, some text⟩, ?_, rfl⟩
        simp [restore, initialState, h]
    | some t =>
      by_cases ht : storedTruthy (some t) = true
      · cases hist with
        | none =>
          refine ⟨{ initialState ⟨some t, none⟩ with token := .string t, isAuthenticated := true },
            ?_, rfl⟩
          simp [restore, initialState, ht]
        | some text =>
          refine ⟨{ initialState ⟨some t, some text⟩ with
            token := .string t, isAuthenticated := true }, ?_, rfl⟩
          simp [restore, initialState, ht, h]
      · cases hist with
        | none =>
          refine ⟨initialState ⟨some t, none⟩, ?_, rfl⟩
          simp [restore, initialState, ht]
        | some text =>
          refine ⟨initialState ⟨some t, some text⟩, ?_, rfl⟩
          simp [restore, initialState, ht, h]
  · intro text ledger hq hne hp
    simp only at hq
    subst hq
    have htr : storedTruthy (some text) = true := by simp [storedTruthy, hne]
    obtain ⟨s1, _, h⟩ := restore_ledger_cases J tok text htr
    rw [hp] at h
    exact ⟨_, h, rfl⟩
  · intro text value hq hne hp
    simp only at hq
    subst hq
    have htr : storedTruthy (some text) = true := by simp [storedTruthy, hne]
    obtain ⟨s1, _, h⟩ := restore_ledger_cases J tok text htr
    rw [hp] at h
    exact ⟨_, h⟩
  · intro text e hq hne hp
    simp only at hq
    subst hq
    have htr : storedTruthy (some text) = true := by simp [storedTruthy, hne]
    obtain ⟨s1, _, h⟩ := restore_ledger_cases J tok text htr
    rw [hp] at h
    exact h

/-- C8, as stated, fails: with the text `{` under the history key
`JSON.parse` throws and the mount effect fails instead of yielding the empty
ledger; and with the text `null` the effect completes with `null`, not the
empty list, as the ledger. -/
theorem restore_throws_on_corrupt_history :
    corruptStorage.query_history = some (jsLit "\x7b") ∧
      restore sampleJson (initialState corruptStorage) =
        .threw (jsLit "Unexpected token in JSON") ∧
      nullStorage.query_history = some (jsLit "null") ∧
      restore sampleJson (initialState nullStorage) =
        .foreign (initialState nullStorage) .null := by
  exact ⟨rfl, rfl, rfl, rfl⟩

/-! ## Message ids -/

/-- The ids of the transcript after one call of `handleSendMessage`. -/
theorem messageIds_handleSendMessage (J : Json) (env : ChatEnv) (s : AppState)
    (arg : Option JsString) :
    messageIds (handleSendMessage J env s arg) =
      if sendRejected s (arg.getD s.input) then messageIds s
      else if env.unauthorized then [env.replyTick.now + 1]
      else messageIds s ++ env.sendTick.now :: (env.replyTick.now + 1) ::
        (if env.repliesTwice then [env.catchTick.now + 1] else []) := by
  by_cases hrej : sendRejected s (arg.getD s.input) = true
  · have : handleSendMessage J env s arg = s := by
      simp [handleSendMessage, handleSendMessageStart, hrej]
    simp [this, hrej]
  · rw [handleSendMessage_passed J env s arg (by simpa using hrej)]
    simp only [hrej]
    unfold messageIds chatSettle ChatEnv.unauthorized ChatEnv.repliesTwice
    cases env.outcome with
    | rejected message => simp [chatCatch]
    | response status body =>
      by_cases h401 : status = 401
      · subst h401
        simp [responseOk, chatCatch, handleLogout]
      · by_cases hok : responseOk status = true
        · cases body with
          | invalidJson message => simp [hok, h401, chatCatch]
          | null message => simp [hok, h401, chatCatch]
          | data response message =>
            cases hc : chatContent response message <;>
              simp [hok, h401, hc, addToHistory, chatCatch]
        · cases body <;> simp [hok, h401, chatCatch]

theorem ids_step (J : Json) (env : ChatEnv) (s : AppState) (arg : Option JsString) (floor : Nat)
    (hsorted : List.Pairwise (· < ·) (messageIds s)) (hbound : ∀ i ∈ messageIds s, i < floor)
    (h1 : floor ≤ env.sendTick.now) (h2 : env.sendTick.now ≤ env.replyTick.now)
    (h3 : env.repliesTwice = true → env.replyTick.now < env.catchTick.now) :
    List.Pairwise (· < ·) (messageIds (handleSendMessage J env s arg)) ∧
      ∀ i ∈ messageIds (handleSendMessage J env s arg), i < env.lastStamp + 2 := by
  rw [messageIds_handleSendMessage]
  unfold ChatEnv.lastStamp
  by_cases hrej : sendRejected s (arg.getD s.input) = true
  · simp only [hrej, if_true]
    refine ⟨hsorted, fun i hi => ?_⟩
    have := hbound i hi
    by_cases ht : env.repliesTwice = true
    · have := h3 ht
      simp only [ht, if_true]
      omega
    · simp only [ht]
      simp only [Bool.false_eq_true, if_false]
      omega
  · simp only [hrej]
    by_cases hu : env.unauthorized = true
    · simp only [hu, if_true]
      by_cases ht : env.repliesTwice = true
      · have := h3 ht
        simp [ht]
        omega
      · simp [ht]
    · simp only [hu]
      by_cases ht : env.repliesTwice = true
      · have h4 := h3 ht
        simp only [ht, if_true, Bool.false_eq_true, if_false]
        refine ⟨?_, ?_⟩
        · rw [List.pairwise_append]
          refine ⟨hsorted, ?_, ?_⟩
          · simp
            omega
          · intro a ha b hb
            have := hbound a ha
            simp at hb
            omega
        · intro i hi
          simp at hi
          rcases hi with hi | hi | hi | hi
          · have := hbound i hi
            omega
          · omega
          · omega
          · omega
      · simp only [ht, Bool.false_eq_true, if_false]
        refine ⟨?_, ?_⟩
        · rw [List.pairwise_append]
          refine ⟨hsorted, ?_, ?_⟩
          · simp
            omega
          · intro a ha b hb
            have := hbound a ha
            simp at hb
            omega
        · intro i hi
          simp at hi
          rcases hi with hi | hi | hi
          · have := hbound i hi
            omega
          · omega
          · omega

theorem ids_runChats (J : Json) (chats : List (ChatEnv × Option JsString)) (s : AppState)
    (floor : Nat) (hsorted : List.Pairwise (· < ·) (messageIds s))
    (hbound : ∀ i ∈ messageIds s, i < floor) (hsp : spaced floor chats = true) :
    List.Pairwise (· < ·) (messageIds (runChats J s chats)) := by
  induction chats generalizing s floor with
  | nil => simpa [runChats] using hsorted
  | cons c rest ih =>
    obtain ⟨env, arg⟩ := c
    simp only [spaced, Bool.and_eq_true, decide_eq_true_eq, Bool.or_eq_true,
      Bool.not_eq_true'] at hsp
    obtain ⟨⟨⟨h1, h2⟩, h3⟩, h4⟩ := hsp
    have h3' : env.repliesTwice = true → env.replyTick.now < env.catchTick.now := by
      intro ht
      rcases h3 with h3 | h3
      · rw [ht] at h3; cases h3
      · exact h3
    obtain ⟨hs, hb⟩ := ids_step J env s arg floor hsorted hbound h1 h2 h3'
    simp only [runChats, List.foldl_cons]
    exact ih (handleSendMessage J env s arg) (env.lastStamp + 2) hs hb h4

/-- C10, as amended: starting from an empty transcript, after any sequence of
exchanges run to completion the ids of the transcript are strictly increasing,
hence pairwise distinct, provided that in each exchange the clock does not go
back between the send and the reply, that it advances between the assistant
message and the error message of an exchange that appends both, and that
every send comes at least 2 ms after the last message of the exchange before
it was built. -/
theorem ids_strictly_increasing (J : Json) (s : AppState)
    (chats : List (ChatEnv × Option JsString)) (hempty : s.messages = [])
    (hsp : spaced 0 chats = true) :
    List.Pairwise (· < ·) (messageIds (runChats J s chats)) ∧
      (messageIds (runChats J s chats)).Nodup := by
  have h : List.Pairwise (· < ·) (messageIds (runChats J s chats)) :=
    ids_runChats J chats s 0 (by simp [messageIds, hempty]) (by simp [messageIds, hempty]) hsp
  exact ⟨h, h.imp (fun hab => Nat.ne_of_lt hab)⟩

/-- C10, as stated, fails: under a non-decreasing clock, two exchanges the
second of which is sent 1 ms after the first settled give the ids 0, 1, 1, 2,
neither strictly increasing nor pairwise distinct. -/
theorem quick_resend_repeats_id :
    List.Pairwise (· ≤ ·) (clockReadings quickChats) ∧
      messageIds (runChats sampleJson sampleState quickChats) = [0, 1, 1, 2] ∧
      ¬ (messageIds (runChats sampleJson sampleState quickChats)).Nodup ∧
      ¬ List.Pairwise (· < ·) (messageIds (runChats sampleJson sampleState quickChats)) := by
  have hids : messageIds (runChats sampleJson sampleState quickChats) = [0, 1, 1, 2] := by decide
  refine ⟨by decide, hids, ?_, ?_⟩
  · rw [hids]; decide
  · rw [hids]; decide

/-! ## The theorems at concrete inputs -/

/-- C1 at a concrete input: two calls on a restored ledger of 25 entries. -/
theorem ledger_bounded_newest_first_witness :
    [sampleCall, sampleCall] ≠ [] ∧
      (recordAll sampleJson crowdedState [sampleCall, sampleCall]).queryHistory.length ≤ 20 ∧
      (recordAll sampleJson crowdedState [sampleCall, sampleCall]).queryHistory =
        (([sampleCall, sampleCall].map RecordCall.entry).reverse ++
          crowdedState.queryHistory).take 20 :=
  ⟨by decide, ledger_bounded_newest_first sampleJson crowdedState [sampleCall, sampleCall]
    (by decide)⟩

/-- C6 at a concrete input: a text of two spaces. -/
theorem send_guard_is_noop_witness :
    (trim ((some (jsLit "  ")).getD sampleState.input) = [] ∨ sampleState.isLoading = true) ∧
      handleSendMessageStart offlineEnv.sendTick sampleState (some (jsLit "  ")) =
        (sampleState, none) ∧
      handleSendMessage sampleJson offlineEnv sampleState (some (jsLit "  ")) = sampleState :=
  ⟨Or.inl (by decide),
    send_guard_is_noop sampleJson offlineEnv sampleState (some (jsLit "  ")) (Or.inl (by decide))⟩

/-- C3 at a concrete input: a 200 response carrying a text. -/
theorem successful_exchange_witness :
    (handleSendMessage sampleJson successEnv sampleState none).messages =
        sampleState.messages ++
          [{ id := 5, role := .user, content := .string (jsLit "hello"),
             timestamp := successEnv.sendTick.iso, isError := none },
           { id := 6, role := .assistant, content := .string (jsLit "3 people entered"),
             timestamp := successEnv.replyTick.iso, isError := none }] ∧
      (handleSendMessage sampleJson successEnv sampleState none).queryHistory =
        (historyEntry successEnv.historyTick (jsLit "hello") (jsLit "3 people entered") ::
          sampleState.queryHistory).take 20 :=
  successful_exchange sampleJson successEnv sampleState none 200
    (.string (jsLit "3 people entered")) .undefined (jsLit "3 people entered")
    (by decide) (by decide) rfl (by decide) (by decide)

/-- C4 at a concrete input: a 401 received with two messages already in the transcript. -/
theorem unauthorized_exchange_witness :
    chattedState.isAuthenticated = true ∧ chattedState.messages.length = 2 ∧
      (handleSendMessage sampleJson expiredEnv chattedState none).isAuthenticated = false ∧
      (handleSendMessage sampleJson expiredEnv chattedState none).token = .null ∧
      (handleSendMessage sampleJson expiredEnv chattedState none).storage.sentinel_token = none ∧
      (handleSendMessage sampleJson expiredEnv chattedState none).messages =
        [{ id := 8, role := .assistant,
           content := .string (jsLit "Error: Session expired. Please login again."),
           timestamp := expiredEnv.replyTick.iso, isError := some true }] ∧
      (handleSendMessage sampleJson expiredEnv chattedState none).queryHistory =
        chattedState.queryHistory :=
  ⟨by decide, by decide,
    unauthorized_exchange sampleJson expiredEnv chattedState none
      (.invalidJson (jsLit "Unexpected end of JSON input")) (by decide) (by decide) rfl⟩

/-- C5 at a concrete input: a request that fails on the network. -/
theorem failed_exchange_frame_witness :
    (handleSendMessage sampleJson offlineEnv sampleState none).token = sampleState.token ∧
      (handleSendMessage sampleJson offlineEnv sampleState none).isAuthenticated =
        sampleState.isAuthenticated ∧
      (handleSendMessage sampleJson offlineEnv sampleState none).storage.sentinel_token =
        sampleState.storage.sentinel_token ∧
      (handleSendMessage sampleJson offlineEnv sampleState none).queryHistory =
        sampleState.queryHistory ∧
      (handleSendMessage sampleJson offlineEnv sampleState none).messages =
        sampleState.messages ++
          [{ id := 3, role := .user, content := .string (jsLit "hello"),
             timestamp := offlineEnv.sendTick.iso, isError := none },
           { id := 4, role := .assistant,
             content := .string (jsLit "Error: " ++ jsLit "Failed to fetch"),
             timestamp := offlineEnv.replyTick.iso, isError := some true }] :=
  (failed_exchange_frame sampleJson offlineEnv sampleState none (by decide) (by decide)).1
    (jsLit "Failed to fetch") (Or.inl rfl)

/-- C7, as amended, at a concrete input: a session of five operations. -/
theorem session_invariant_reachable_witness :
    (∀ a ∈ sampleActions, a.tokenGranted = true) ∧
      run sampleJson (initialState freshStorage) sampleActions =
        .ok (handleLogout (handleLogin (.response 200 (.data (.string (jsLit "tok2"))))
          (handleSendMessage sampleJson expiredEnv
            (handleLogin (.response 200 (.data (.string (jsLit "tok"))))
              (initialState freshStorage)) (some (jsLit "hello"))))) ∧
      ((handleLogout (handleLogin (.response 200 (.data (.string (jsLit "tok2"))))
          (handleSendMessage sampleJson expiredEnv
            (handleLogin (.response 200 (.data (.string (jsLit "tok"))))
              (initialState freshStorage)) (some (jsLit "hello"))))).isAuthenticated = true ↔
        (handleLogout (handleLogin (.response 200 (.data (.string (jsLit "tok2"))))
          (handleSendMessage sampleJson expiredEnv
            (handleLogin (.response 200 (.data (.string (jsLit "tok"))))
              (initialState freshStorage)) (some (jsLit "hello"))))).token.present = true) :=
  ⟨by decide, rfl,
    session_invariant_reachable sampleJson freshStorage sampleActions _ (by decide) rfl⟩

/-- C9, as amended, at a concrete input: an empty `response` field. -/
theorem assistant_content_first_truthy_witness :
    (handleSendMessage sampleJson emptyResponseEnv sampleState none).messages[
        sampleState.messages.length + 1]? =
      some { id := 6, role := .assistant,
             content :=
               if (JsValue.string []).truthy then JsValue.string []
               else if (JsValue.string (jsLit "fallback")).truthy then
                 JsValue.string (jsLit "fallback")
               else .string (jsLit "No response received"),
             timestamp := emptyResponseEnv.replyTick.iso, isError := none } :=
  assistant_content_first_truthy sampleJson emptyResponseEnv sampleState none 200
    (.string []) (.string (jsLit "fallback")) (by decide) (by decide) rfl (by decide)

/-- C10, as amended, at a concrete input: two exchanges 2 ms apart. -/
theorem ids_strictly_increasing_witness :
    sampleState.messages = [] ∧ spaced 0 spacedChats = true ∧
      List.Pairwise (· < ·) (messageIds (runChats sampleJson sampleState spacedChats)) ∧
      (messageIds (runChats sampleJson sampleState spacedChats)).Nodup :=
  ⟨rfl, by decide, ids_strictly_increasing sampleJson sampleState spacedChats rfl (by decide)⟩

set_option maxRecDepth 100000 in
/-- The text `JSON.stringify` writes for the ledger of the two sample entries. -/
theorem savedText_eq :
    jsonStringify [newerEntry, oldEntry] =
      jsLit "[\x7b\"id\":1760338800000,\"query\":\"who entered?\",\"response\":\"3 people entered...\",\"timestamp\":\"2025-10-13T07:00:00.000Z\"\x7d,\x7b\"id\":1,\"query\":\"old\",\"response\":\"old answer...\",\"timestamp\":\"2025-10-12T07:00:00.000Z\"\x7d]" := by
  decide

set_option maxRecDepth 100000 in
/-- The function `JSON.parse` reads that text back as the same ledger. -/
theorem savedText_parsed :
    sampleJson.parse (jsonStringify [newerEntry, oldEntry]) = .ok (.ledger [newerEntry, oldEntry]) :=
  rfl

set_option maxRecDepth 100000 in
/-- C8, as amended, at concrete inputs: a store holding the text of a ledger
of two entries, which the mount effect restores in order from the empty
initial ledger; a store holding `null`; a store holding `{`. -/
theorem restore_ledger_witness :
    savedStorage.query_history = some (jsonStringify [newerEntry, oldEntry]) ∧
      (initialState savedStorage).queryHistory = [] ∧
      (∃ s, restore sampleJson (initialState savedStorage) = .ok s ∧
        s.queryHistory = [newerEntry, oldEntry]) ∧
      (∃ s, restore sampleJson (initialState nullStorage) = .foreign s .null) ∧
      restore sampleJson (initialState corruptStorage) =
        .threw (jsLit "Unexpected token in JSON") :=
  ⟨rfl, rfl,
    (restore_ledger sampleJson savedStorage).2.1 (jsonStringify [newerEntry, oldEntry])
      [newerEntry, oldEntry] rfl (by decide) savedText_parsed,
    (restore_ledger sampleJson nullStorage).2.2.1 (jsLit "null") .null rfl (by decide) rfl,
    (restore_ledger sampleJson corruptStorage).2.2.2 (jsLit "\x7b")
      (jsLit "Unexpected token in JSON") rfl (by decide) rfl⟩

end Sentinel
